import Mathlib

/-!
Verification development for the AREIA artificial-redshift pipeline
(`areia.py`) and its background-sampling module (`background.py`).

Modelling conventions:
* 2-D numpy arrays are embedded as `Mat`: a pair of dimensions together
  with a total entry function `ℕ → ℕ → ℚ`; only entries with both indices
  in range are meaningful, and `Mat.EqOn` is the corresponding notion of
  array equality (equal shapes and equal in-range entries).
* Real/float arithmetic is embedded as exact rational arithmetic.  Note
  that `ℚ` division by zero yields `0` where numpy would produce
  non-finite values; every statement that touches a division records the
  relevant non-vanishing side conditions explicitly.
* Python float `**` with a non-integer exponent, luminosity distances,
  PSF convolution, order-0 spline resizing, random draws, aperture
  photometry, and the (external to `src/`) galclean segmentation helpers
  are third-party capabilities at the boundary; they enter the embedding
  as components of an explicit `Oracles` record and are constrained only
  by hypotheses stated in the theorems that need them.
* Fallible Python code is embedded in `Except PyErr`.
-/

/-- Python exception classes that the embedded code can raise. -/
inductive PyErr where
  | nameError (nm : String)
  | indexError (msg : String)
  | valueError (msg : String)
  | typeError (msg : String)
deriving DecidableEq

instance {ε α : Type} [DecidableEq ε] [DecidableEq α] : DecidableEq (Except ε α) := by
  intro a b
  cases a <;> cases b
  case error.error x y => exact decidable_of_iff (x = y) (by simp)
  case error.ok x y => exact isFalse (by simp)
  case ok.error x y => exact isFalse (by simp)
  case ok.ok x y => exact decidable_of_iff (x = y) (by simp)

/-- Message of the sizing error raised by the background-section samplers. -/
def galaxyMsg : String := "Galaxy Image larger than BG"

/-- Message standing for numpy's broadcast failure in an in-place slice add. -/
def broadcastMsg : String := "operands could not be broadcast together"

/-- Message standing for numpy's `randint` failure when low >= high. -/
def randintMsg : String := "low >= high"

/-- Name of the helper that `background.py` calls but never defines or imports. -/
def randomFlipsName : String := "random_flips"

/-- Name that `fromrawdata` passes to the constructor without ever binding it. -/
def initialFrameName : String := "initial_frame"

/-- Message of the `TypeError` a call to `ArtificialRedshift` with a
missing `MAG` argument would raise. -/
def missingMagMsg : String := "__init__ missing 1 required positional argument"

/-- First provenance HISTORY line written by `writeto`. -/
def historyLine1 : String := "Image simulated with AREIA: Artificial Redshift Effects for IA"

/-- Second provenance HISTORY line written by `writeto`. -/
def historyLine2 : String := "Source Extracted with Galclean"

/-- Fixed fragments of the third (redshift-interpolating) HISTORY line. -/
def fromZtext : String := "From z = "

/-- Middle fragment of the third HISTORY line. -/
def toZtext : String := " to z = "

/-- Fourth provenance HISTORY line written by `writeto`. -/
def historyLine4 : String := "Any issues forward it to leonardo.ferreira@nottingham.ac.uk"

/-- Fifth provenance HISTORY line written by `writeto`. -/
def historyLine5 : String := "Or seek help at https://github.com/astroferreira/areia"

/-- A 2-D numpy array: dimensions plus a total entry function.  Entries at
indices outside `[0, rows) × [0, cols)` are representation junk. -/
structure Mat where
  rows : ℕ
  cols : ℕ
  data : ℕ → ℕ → ℚ

/-- Constant matrix (e.g. `np.zeros`, `np.ones` analogues). -/
def Mat.const (r c : ℕ) (q : ℚ) : Mat := ⟨r, c, fun _ _ => q⟩

/-- `A.sum()`: total of all in-range entries. -/
def Mat.totalSum (A : Mat) : ℚ :=
  ∑ i ∈ Finset.range A.rows, ∑ j ∈ Finset.range A.cols, A.data i j

/-- Pointwise division of an array by a scalar (`A / c`). -/
def Mat.scalarDiv (A : Mat) (c : ℚ) : Mat := ⟨A.rows, A.cols, fun i j => A.data i j / c⟩

/-- Pointwise multiplication of an array by a scalar (`A * c`). -/
def Mat.scalarMul (A : Mat) (c : ℚ) : Mat := ⟨A.rows, A.cols, fun i j => A.data i j * c⟩

/-- Array equality in the numpy sense: same shape and equal in-range entries. -/
def Mat.EqOn (A B : Mat) : Prop :=
  A.rows = B.rows ∧ A.cols = B.cols ∧
    ∀ i < A.rows, ∀ j < A.cols, A.data i j = B.data i j

instance (A B : Mat) : Decidable (A.EqOn B) := by
  unfold Mat.EqOn; infer_instance

theorem Mat.extEq {A B : Mat} (hr : A.rows = B.rows) (hc : A.cols = B.cols)
    (hd : ∀ i j, A.data i j = B.data i j) : A = B := by
  cases A; cases B
  simp only [Mat.mk.injEq]
  exact ⟨hr, hc, funext fun i => funext fun j => hd i j⟩

theorem Mat.eqOn_refl (A : Mat) : A.EqOn A := ⟨rfl, rfl, fun _ _ _ _ => rfl⟩

/-- `totalSum` only looks at in-range entries, so it respects `EqOn`. -/
theorem Mat.totalSum_congr {A B : Mat} (h : A.EqOn B) : A.totalSum = B.totalSum := by
  obtain ⟨hr, hc, hd⟩ := h
  unfold Mat.totalSum
  rw [← hr, ← hc]
  exact Finset.sum_congr rfl fun i hi =>
    Finset.sum_congr rfl fun j hj =>
      hd i (Finset.mem_range.mp hi) j (Finset.mem_range.mp hj)

theorem Mat.totalSum_scalarDiv (A : Mat) (c : ℚ) :
    (A.scalarDiv c).totalSum = A.totalSum / c := by
  unfold Mat.totalSum Mat.scalarDiv
  simp [Finset.sum_div]

theorem Mat.totalSum_scalarMul (A : Mat) (c : ℚ) :
    (A.scalarMul c).totalSum = A.totalSum * c := by
  unfold Mat.totalSum Mat.scalarMul
  simp [Finset.sum_mul]

theorem Mat.totalSum_const_zero (r c : ℕ) : (Mat.const r c 0).totalSum = 0 := by
  unfold Mat.totalSum Mat.const
  simp

/-- Python `int()` applied to a rational (float): truncation toward zero. -/
def pyInt (q : ℚ) : ℤ := if q < 0 then -((-q).floor) else q.floor

/-- Python/numpy slice normalization for one axis of length `len` with a
`start:stop` slice (step 1): negative indices count from the end, and the
result is clamped into `[0, len]`.  Returns the base offset and length of
the selected index window. -/
def sliceIdx (len : ℕ) (start stop : ℤ) : ℕ × ℕ :=
  let norm : ℤ → ℤ := fun k => if k < 0 then k + len else k
  let clamp : ℤ → ℕ := fun k => min k.toNat len
  let s := clamp (norm start)
  let e := clamp (norm stop)
  (s, e - s)

/-- 2-D slice `A[r0:r1, c0:c1]` with Python semantics on both axes. -/
def Mat.slice2 (A : Mat) (r0 r1 c0 c1 : ℤ) : Mat :=
  let rw := sliceIdx A.rows r0 r1
  let cw := sliceIdx A.cols c0 c1
  ⟨rw.2, cw.2, fun i j => A.data (rw.1 + i) (cw.1 + j)⟩

/-- Multilinear (`method='linear'`) interpolation of `interpn` on the
per-axis grids `arange(s) - (s-1)/2` used by `zoom_contents`, specialized
to two dimensions.  The query point `(x, y)` is given in those centered
coordinates; out-of-bounds points take the fill value
(`bounds_error=False`). -/
def interpLin (A : Mat) (fill : ℚ) (x y : ℚ) : ℚ :=
  let u := x + ((A.rows : ℚ) - 1) / 2
  let v := y + ((A.cols : ℚ) - 1) / 2
  if u < 0 ∨ u > (A.rows : ℚ) - 1 ∨ v < 0 ∨ v > (A.cols : ℚ) - 1 then fill
  else
    let i0 := (Int.floor u).toNat
    let j0 := (Int.floor v).toNat
    let i1 := min (i0 + 1) (A.rows - 1)
    let j1 := min (j0 + 1) (A.cols - 1)
    let du := u - (i0 : ℚ)
    let dv := v - (j0 : ℚ)
    (1 - du) * (1 - dv) * A.data i0 j0 + (1 - du) * dv * A.data i0 j1 +
      du * (1 - dv) * A.data i1 j0 + du * dv * A.data i1 j1

/-- Embedding of `zoom_contents(image, scale, image_axes=[0,1],
method='linear', conserve_flux, fill_value)` from `areia.py`, for the 2-D
arrays the pipeline feeds it (a scalar scale broadcast to both axes).  The
output grid point `(i, j)` in centered coordinates is divided by the scale
and the input is interpolated there; with `conserve_flux` the result is
divided by `scale**2`. -/
def zoom_contents (image : Mat) (scale : ℚ) (conserve_flux : Bool) (fill_value : ℚ) : Mat :=
  ⟨image.rows, image.cols, fun i j =>
    let x := ((i : ℚ) - ((image.rows : ℚ) - 1) / 2) / scale
    let y := ((j : ℚ) - ((image.cols : ℚ) - 1) / 2) / scale
    let out := interpLin image fill_value x y
    if conserve_flux then out / scale ^ 2 else out⟩

/-- Embedding of the `Config` class: the pipeline feature toggles and
numeric constants, with the class-level defaults of `areia.py`.  The
`cosmo` attribute (astropy `FlatLambdaCDM(H0=100*h, Om0=0.3, Tcmb0=2.725)`)
is an external capability; its luminosity-distance function enters the
embedding through `Oracles.DL`. -/
structure Config where
  h : ℚ := 7/10
  add_background : Bool := true
  rebinning : Bool := true
  convolve_with_psf : Bool := true
  make_cutout : Bool := true
  dimming : Bool := true
  shot_noise : Bool := true
  size_correction : Bool := true
  evo : Bool := true
  evo_alpha : ℚ := -(13/100)
  output_size : ℕ := 101
  bg_centered : Bool := true
  fixed_grid : Bool := true

/-- The default configuration (`Config()` with no overrides). -/
def Config.default : Config := {}

/-- Configuration with every pipeline toggle disabled. -/
def allOffConfig : Config :=
  { add_background := false, rebinning := false, convolve_with_psf := false,
    make_cutout := false, dimming := false, shot_noise := false,
    size_correction := false, evo := false, bg_centered := false,
    fixed_grid := false }

/-- Embedding of `ObservationFrame`: redshift, pixel scale and exposure
time of one side of the transformation. -/
structure ObservationFrame where
  redshift : ℚ
  pixelscale : ℚ
  exptime : ℚ

/-- External capabilities and random draws consumed by the pipeline, made
explicit.  `DL` is astropy's luminosity distance; `powq` stands for Python
float `**` with a non-integer exponent; `sqrtq` for `np.sqrt`;
`segmentation` and `measureStd` for `galclean.central_segmentation_map`
and the standard deviation returned by `galclean.measure_background`
(repository code not present under `src/`); `convolve2d` for
`astropy.convolution.convolve`; `scipy_zoom` for
`scipy.ndimage.zoom(..., order=0, prefilter=True)`; `randn`, `normal` and
`randint2` for the process-global numpy random draws. -/
structure Oracles where
  DL : ℚ → ℚ
  powq : ℚ → ℚ → ℚ
  sqrtq : ℚ → ℚ
  segmentation : Mat → ℕ → ℕ → Bool
  measureStd : Mat → ℚ
  convolve2d : Mat → Mat → Mat
  scipy_zoom : Mat → ℚ → Mat
  randn : ℕ → ℕ → ℚ
  normal : ℚ → ℕ → ℕ → ℚ
  randint2 : ℕ → ℕ → ℕ × ℕ

namespace ArtificialRedshift

/-- State of an `ArtificialRedshift` instance: the construction inputs and
every attribute some stage may assign.  Python attributes do not exist
until their stage assigns them; here unassigned array attributes hold the
placeholder `Mat.const 0 0 0` and unassigned scalars hold `0` (reading an
attribute before its stage runs would raise `AttributeError` in Python,
and no embedded operation reads one). -/
structure PState where
  image : Mat
  psf : Mat
  background : Option Mat
  initial_frame : ObservationFrame
  target_frame : ObservationFrame
  MAG : ℚ
  bg_position : Option (ℕ × ℕ)
  final : Mat
  cutout : Mat := Mat.const 0 0 0
  masked : Mat := Mat.const 0 0 0
  scale_factor : ℚ := 0
  size_correction_factor : ℚ := 0
  flux : ℚ := 0
  rebinned : Mat := Mat.const 0 0 0
  dimming_factor : ℚ := 0
  dimmed : Mat := Mat.const 0 0 0
  mag_correction : ℚ := 0
  evo_factor : ℚ := 0
  with_evolution : Mat := Mat.const 0 0 0
  convolved : Mat := Mat.const 0 0 0
  shot_noise : Mat := Mat.const 0 0 0
  with_shot_noise : Mat := Mat.const 0 0 0
  with_background : Mat := Mat.const 0 0 0
  final_crop : Option Mat := none

/-- Field assignments performed by `ArtificialRedshift.__init__` before the
stage methods run (`self.final = self.image`). -/
def initState (image psf : Mat) (background : Option Mat)
    (initial_frame target_frame : ObservationFrame) (MAG : ℚ)
    (bg_position : Option (ℕ × ℕ)) : PState :=
  { image := image, psf := psf, background := background,
    initial_frame := initial_frame, target_frame := target_frame,
    MAG := MAG, bg_position := bg_position, final := image }

/-- Stage `cutout_source`: when `make_cutout` is set, zero the non-source
pixels into `cutout`, zero the source pixels into `masked`, and reassign
`final`; otherwise do nothing. -/
def cutout_source (o : Oracles) (cfg : Config) (st : PState) : PState :=
  if cfg.make_cutout then
    let seg := o.segmentation st.image
    let cut : Mat := ⟨st.image.rows, st.image.cols,
      fun i j => if seg i j then st.image.data i j else 0⟩
    let msk : Mat := ⟨st.image.rows, st.image.cols,
      fun i j => if seg i j then 0 else st.image.data i j⟩
    { st with cutout := cut, masked := msk, final := cut }
  else st

/-- The geometric scale factor assigned by `geometric_rebinning`: the
luminosity-distance/pixel-scale ratio when `rebinning` is enabled, else
the initial value `1`. -/
def scaleFactorOf (o : Oracles) (cfg : Config) (st : PState) : ℚ :=
  if cfg.rebinning then
    (o.DL st.initial_frame.redshift * (1 + st.target_frame.redshift) ^ 2 *
        st.initial_frame.pixelscale) /
      (o.DL st.target_frame.redshift * (1 + st.initial_frame.redshift) ^ 2 *
        st.target_frame.pixelscale)
  else 1

/-- The size-evolution correction factor `(1 + z_target)**(-0.97)` when
`size_correction` is enabled, else the initial value `1`. -/
def sizeCorrectionOf (o : Oracles) (cfg : Config) (st : PState) : ℚ :=
  if cfg.size_correction then o.powq (1 + st.target_frame.redshift) (-(97/100)) else 1

/-- The resampled array produced inside `geometric_rebinning`: `final` is
divided by its total sum and rescaled by the combined factor, via
`zoom_contents(..., conserve_flux=False)` when `fixed_grid` is set and via
`scipy.ndimage.zoom(..., order=0, prefilter=True)` otherwise. -/
def rebinResampled (o : Oracles) (cfg : Config) (st : PState) : Mat :=
  let reb0 := st.final.scalarDiv st.final.totalSum
  let s := scaleFactorOf o cfg st * sizeCorrectionOf o cfg st
  if cfg.fixed_grid then zoom_contents reb0 s false 0 else o.scipy_zoom reb0 s

/-- Stage `geometric_rebinning`: record the total flux, normalize `final`
to unit sum, resample, renormalize to unit sum, rescale by the recorded
flux, and reassign `final`.  This stage executes these steps for every
configuration; only the scale factors are toggle-gated. -/
def geometric_rebinning (o : Oracles) (cfg : Config) (st : PState) : PState :=
  let flux := st.final.totalSum
  let reb := rebinResampled o cfg st
  let reb2 := (reb.scalarDiv reb.totalSum).scalarMul flux
  { st with scale_factor := scaleFactorOf o cfg st,
            size_correction_factor := sizeCorrectionOf o cfg st,
            flux := flux, rebinned := reb2, final := reb2 }

/-- Stage `apply_dimming`: multiply `final` by
`(D_L(z_initial)/D_L(z_target))**2` when `dimming` is enabled. -/
def apply_dimming (o : Oracles) (cfg : Config) (st : PState) : PState :=
  if cfg.dimming then
    let f := (o.DL st.initial_frame.redshift / o.DL st.target_frame.redshift) ^ 2
    let d := st.final.scalarMul f
    { st with dimming_factor := f, dimmed := d, final := d }
  else st

/-- The unused alternate `flat_evolution_correction` operation (defined in
the source but never invoked by the pipeline). -/
def flat_evolution_correction (o : Oracles) (cfg : Config) (st : PState) : PState :=
  if cfg.evo then
    let f := o.powq 10 (-(2/5) * cfg.evo_alpha * st.target_frame.redshift)
    let w := st.final.scalarMul f
    { st with evo_factor := f, with_evolution := w, final := w }
  else st

/-- Stage `evolution_correction`: compute the magnitude correction
`MAG - MAG*(1+z_target)**alpha` and the flux multiplier
`10**(-0.4*correction)`, and scale `final` by it when `evo` is enabled. -/
def evolution_correction (o : Oracles) (cfg : Config) (st : PState) : PState :=
  if cfg.evo then
    let mc := st.MAG - st.MAG * o.powq (1 + st.target_frame.redshift) cfg.evo_alpha
    let f := o.powq 10 (-(2/5) * mc)
    let w := st.final.scalarMul f
    { st with mag_correction := mc, evo_factor := f, with_evolution := w, final := w }
  else st

/-- Stage `convolve_psf`: normalize the stored PSF to unit sum (mutating
it) and convolve `final` with it when `convolve_with_psf` is enabled. -/
def convolve_psf (o : Oracles) (cfg : Config) (st : PState) : PState :=
  if cfg.convolve_with_psf then
    let p := st.psf.scalarDiv st.psf.totalSum
    let c := o.convolve2d st.final p
    { st with psf := p, convolved := c, final := c }
  else st

/-- Stage `apply_shot_noise`: add
`sqrt(|final * exptime_target|) * randn / exptime_target` to `final` when
`shot_noise` is enabled. -/
def apply_shot_noise (o : Oracles) (cfg : Config) (st : PState) : PState :=
  if cfg.shot_noise then
    let te := st.target_frame.exptime
    let n : Mat := ⟨st.final.rows, st.final.cols,
      fun i j => o.sqrtq |st.final.data i j * te| * o.randn i j / te⟩
    let w : Mat := ⟨st.final.rows, st.final.cols,
      fun i j => st.final.data i j + n.data i j⟩
    { st with shot_noise := n, with_shot_noise := w, final := w }
  else st

/-- Embedding of the method `_find_bg_section(bg, img, CENTER)`.  With
`CENTER` the section is sliced as `bg[xi:xf, xi:xf]` with
`xi = int(a/2 - c/2)` and `xf = int(b/2 + d/2)` and no size check.
Without `CENTER`, when no `bg_position` was configured, a random top-left
offset is drawn when the image fits inside the background
(`np.random.randint(0, a-c)` raises `ValueError` when its range is empty,
i.e. when `a = c` or `b = d`), and otherwise the method raises
`IndexError('Galaxy Image larger than BG')`. -/
def findBgSection (o : Oracles) (bg img : Mat) (CENTER : Bool)
    (bg_position : Option (ℕ × ℕ)) : Except PyErr Mat :=
  let a := bg.rows
  let b := bg.cols
  let c := img.rows
  let d := img.cols
  if CENTER then
    let xi := pyInt ((a : ℚ)/2 - (c : ℚ)/2)
    let xf := pyInt ((b : ℚ)/2 + (d : ℚ)/2)
    .ok (bg.slice2 xi xf xi xf)
  else
    match bg_position with
    | none =>
        if c ≤ a ∧ d ≤ b then
          if a = c ∨ b = d then .error (PyErr.valueError randintMsg)
          else
            let x := (o.randint2 (a - c) (b - d)).1 % (a - c)
            let y := (o.randint2 (a - c) (b - d)).2 % (b - d)
            .ok (bg.slice2 x (x + c) y (y + d))
        else .error (PyErr.indexError galaxyMsg)
    | some (x, y) => .ok (bg.slice2 x (x + c) y (y + d))

/-- The in-place composite step at the end of `add_background`:
`with_background = background.copy()` followed by
`with_background[offset_min:offset_max, offset_min:offset_max] += final`,
with offsets computed from the background's first dimension and `final`'s
first dimension (plus the one-pixel odd-size correction).  numpy raises a
broadcast `ValueError` when the addressed slice does not have `final`'s
shape (degenerate broadcasts with a dimension of size 1 are not modelled;
no claim exercises them). -/
def compositeOnto (st : PState) (bgM : Mat) : Except PyErr PState :=
  let ss := st.final.rows
  let off : ℕ := if ss % 2 = 0 then 0 else 1
  let omin : ℤ := ((bgM.rows / 2 : ℕ) : ℤ) - ((ss / 2 : ℕ) : ℤ)
  let omax : ℤ := ((bgM.rows / 2 : ℕ) : ℤ) + ((ss / 2 : ℕ) : ℤ) + off
  let rw := sliceIdx bgM.rows omin omax
  let cw := sliceIdx bgM.cols omin omax
  if rw.2 = st.final.rows ∧ cw.2 = st.final.cols then
    let wb : Mat := ⟨bgM.rows, bgM.cols, fun i j =>
      if rw.1 ≤ i ∧ i < rw.1 + rw.2 ∧ cw.1 ≤ j ∧ j < cw.1 + cw.2 then
        bgM.data i j + st.final.data (i - rw.1) (j - cw.1)
      else bgM.data i j⟩
    .ok { st with background := some bgM, with_background := wb, final := wb }
  else .error (PyErr.valueError broadcastMsg)

/-- Stage `add_background`: when enabled, either synthesize a Gaussian
background from the measured background statistics of `final` (no
background supplied) or select a section of the supplied background via
`_find_bg_section` (the `scale_factor <= 1` and `> 1` branches of the
source invoke the identical call and are modelled as the single call they
both make), then composite `final` onto it. -/
def add_background (o : Oracles) (cfg : Config) (st : PState) : Except PyErr PState :=
  if cfg.add_background then
    match st.background with
    | none =>
        let std := o.measureStd st.final
        let bgM : Mat := ⟨st.final.rows, st.final.cols, fun i j => o.normal std i j⟩
        compositeOnto st bgM
    | some bgArr =>
        match findBgSection o bgArr st.final cfg.bg_centered st.bg_position with
        | .error e => .error e
        | .ok bgSec => compositeOnto st bgSec
  else .ok st

/-- Stage `crop_for_network(size)`: when `final`'s first dimension exceeds
`size`, store `final[yc-half:yc+half, xc-half:xc+half]` with
`half = int(size/2)`, `xc = int(shape[0]/2)`, `yc = int(shape[1]/2)`
(note the source indexes axis 0 with `yc` and axis 1 with `xc`);
otherwise store `final` itself. -/
def crop_for_network (size : ℕ) (st : PState) : PState :=
  if st.final.rows > size then
    let half_size := size / 2
    let xc := st.final.rows / 2
    let yc := st.final.cols / 2
    { st with final_crop := some (st.final.slice2
        ((yc : ℤ) - (half_size : ℤ)) ((yc : ℤ) + (half_size : ℤ))
        ((xc : ℤ) - (half_size : ℤ)) ((xc : ℤ) + (half_size : ℤ))) }
  else { st with final_crop := some st.final }

/-- The whole construction-time pipeline of `ArtificialRedshift.__init__`:
field initialization followed by the fixed stage order, ending with
`crop_for_network(size=config.output_size)`. -/
def runPipeline (o : Oracles) (cfg : Config) (image psf : Mat)
    (background : Option Mat) (initial_frame target_frame : ObservationFrame)
    (MAG : ℚ) (bg_position : Option (ℕ × ℕ)) : Except PyErr PState :=
  let st0 := initState image psf background initial_frame target_frame MAG bg_position
  let st1 := cutout_source o cfg st0
  let st2 := geometric_rebinning o cfg st1
  let st3 := apply_dimming o cfg st2
  let st4 := evolution_correction o cfg st3
  let st5 := convolve_psf o cfg st4
  let st6 := apply_shot_noise o cfg st5
  Except.map (crop_for_network cfg.output_size) (add_background o cfg st6)

/-- FITS header keys written by `writeto`. -/
inductive HKey where
  | REBIN
  | DIM_FACT
  | EVO_FACT
  | EV_ALPHA
deriving DecidableEq

/-- A FITS header: keyword/value pairs plus free-text HISTORY lines. -/
structure FitsHeader where
  keys : List (HKey × ℚ)
  history : List String

/-- The five provenance HISTORY lines always appended by `writeto` (the
third interpolates the source and target redshifts). -/
def history_lines (ini tgt : ObservationFrame) : List String :=
  [historyLine1, historyLine2,
   (fromZtext ++ toString ini.redshift ++ toZtext ++ toString tgt.redshift),
   historyLine4, historyLine5]

/-- The header built by `writeto`: `REBIN` holds `self.scale_factor` when
`rebinning` is enabled, `DIM_FACT` holds `self.dimming_factor` when
`dimming` is enabled, `EVO_FACT`/`EV_ALPHA` hold `self.evo_factor` and the
configured exponent when `evo` is enabled.  The file write itself
(`fits.writeto`, overwrite flag) is external I/O and not modelled. -/
def writeto_header (cfg : Config) (st : PState) : FitsHeader :=
  { keys := (if cfg.rebinning then [(HKey.REBIN, st.scale_factor)] else []) ++
      (if cfg.dimming then [(HKey.DIM_FACT, st.dimming_factor)] else []) ++
      (if cfg.evo then [(HKey.EVO_FACT, st.evo_factor), (HKey.EV_ALPHA, cfg.evo_alpha)] else []),
    history := history_lines st.initial_frame st.target_frame }

/-- Local names bound inside the body of the classmethod `fromrawdata` at
the point of its `return cls(...)` call: the formal parameters plus the
two frames it constructs (`current_frame`, `target_frame`). -/
def fromrawdata_scope : List String :=
  [r"cls", r"image", r"psf", r"background", r"initial_redshift",
   r"target_redshift", r"initial_pixelscale", r"target_pixelscale",
   r"obs_exptime", r"target_exptime", r"current_frame", r"target_frame"]

/-- Number of arguments `fromrawdata` passes to `cls(...)`:
`image, psf, background, initial_frame, target_frame`. -/
def fromrawdata_call_nargs : ℕ := 5

/-- Number of parameters of `ArtificialRedshift.__init__` without default
values (beyond `self`): `image, psf, background, initial_frame,
target_frame, MAG`. -/
def init_required_nargs : ℕ := 6

/-- Embedding of the classmethod `fromrawdata`: it binds `current_frame`
and `target_frame` and then evaluates
`cls(image, psf, background, initial_frame, target_frame)`.  The argument
expression `initial_frame` is a name lookup in the local scope, which
fails; were the name bound, the call would still omit the required `MAG`
argument and raise `TypeError` instead of constructing an instance. -/
def fromrawdata (o : Oracles) (image psf : Mat) (background : Option Mat)
    (initial_redshift target_redshift initial_pixelscale target_pixelscale
      obs_exptime target_exptime : ℚ) : Except PyErr PState :=
  let current_frame : ObservationFrame :=
    ⟨initial_redshift, initial_pixelscale, obs_exptime⟩
  let target_frame : ObservationFrame :=
    ⟨target_redshift, target_pixelscale, target_exptime⟩
  if initialFrameName ∈ fromrawdata_scope then
    let _ := current_frame
    let _ := target_frame
    .error (PyErr.typeError missingMagMsg)
  else .error (PyErr.nameError initialFrameName)

end ArtificialRedshift

namespace BackgroundModule

/-- The `random_flips` helper invoked by `find_bg_section` and
`find_bg_coords`.  It is neither defined nor imported anywhere in the
repository (`background.py` imports only pandas, numpy, matplotlib,
astropy and photutils names), so the name does not resolve: calling it
raises `NameError`.  `none` records that absence. -/
def random_flips : Option (Mat → Mat) := none

/-- Embedding of the standalone `find_bg_section(bg, img)` of
`background.py`: first apply `random_flips` to the background (which
raises `NameError`, see `random_flips`), then check the sizes, drawing a
random offset or raising `IndexError('Galaxy Image larger than BG')`. -/
def find_bg_section (o : Oracles) (bg img : Mat) : Except PyErr Mat :=
  match random_flips with
  | none => .error (PyErr.nameError randomFlipsName)
  | some rf =>
      let bgF := rf bg
      let a := bgF.rows
      let b := bgF.cols
      let c := img.rows
      let d := img.cols
      if c ≤ a ∧ d ≤ b then
        if a = c ∨ b = d then .error (PyErr.valueError randintMsg)
        else
          let x := (o.randint2 (a - c) (b - d)).1 % (a - c)
          let y := (o.randint2 (a - c) (b - d)).2 % (b - d)
          .ok (bgF.slice2 x (x + c) y (y + d))
      else .error (PyErr.indexError galaxyMsg)

/-- Embedding of the standalone `find_bg_coords(bg, img)`: identical to
`find_bg_section` (including the initial `random_flips` call that raises
`NameError`) but returning the chosen offset and window `(x, c, y, d)`
instead of the cropped data. -/
def find_bg_coords (o : Oracles) (bg img : Mat) : Except PyErr (ℕ × ℕ × ℕ × ℕ) :=
  match random_flips with
  | none => .error (PyErr.nameError randomFlipsName)
  | some rf =>
      let bgF := rf bg
      let a := bgF.rows
      let b := bgF.cols
      let c := img.rows
      let d := img.cols
      if c ≤ a ∧ d ≤ b then
        if a = c ∨ b = d then .error (PyErr.valueError randintMsg)
        else
          let x := (o.randint2 (a - c) (b - d)).1 % (a - c)
          let y := (o.randint2 (a - c) (b - d)).2 % (b - d)
          .ok (x, c, y, d)
      else .error (PyErr.indexError galaxyMsg)

/-- One random draw of the rejection-sampling loop in
`find_bg_section_from_goodss`, together with the external computations
performed on it: whether the `Cutout2D` call succeeded (its failure is
caught and retried), the angular separations to the pre-filtered catalog
sources converted to pixel units (`separation(...).to(arcsec)/0.06`), and
the pixel data of the cutout. -/
structure Candidate where
  cutoutOk : Bool
  distances : List ℚ
  data : Mat

/-- The aperture-photometry rejection condition of the loop, literally as
coded: with `LT` the circular-aperture sum (radius `size/3`, via the
external `aperture_photometry`, abstracted as `apSum`) and
`light_outside = data.sum() - LT`, the candidate is rejected when
`LT == 0 or LT > 20 or LT > light_outside`.  Note the first test is
equality with zero, not non-positivity. -/
def goodss_reject_aperture (apSum : Mat → ℚ → ℚ) (size : ℕ) (c : Candidate) : Bool :=
  let off : ℚ := (size : ℚ)
  let LT := apSum c.data (off / 3)
  let light_outside := c.data.totalSum - LT
  decide (LT = 0) || decide (LT > 20) || decide (LT > light_outside)

/-- Whether one iteration of the `while(reiterate)` loop accepts its
candidate (sets `reiterate = False`): the `Cutout2D` call must succeed,
the nearest catalog source must not be farther than `size/1.5` pixels,
the aperture condition must not reject, and no source within `size/2`
pixels may lie at `size/2.5` pixels or closer.  (On an empty catalog
subset the source would raise inside `distances.min()`; that case is
represented as a non-accepting iteration and is not exercised by any
claim.) -/
def goodss_accept (apSum : Mat → ℚ → ℚ) (size : ℕ) (c : Candidate) : Bool :=
  if !c.cutoutOk then false
  else
    match c.distances.min? with
    | none => false
    | some dmin =>
        let off : ℚ := (size : ℚ)
        if dmin > off / (3/2) then false
        else if goodss_reject_aperture apSum size c then false
        else
          decide (((c.distances.filter (fun t => t < off / 2)).filter
            (fun t => t ≤ off / (5/2))).length = 0)

/-- The search loop of `find_bg_section_from_goodss` on the stream of
random draws it would make: return the first accepted candidate (the
source then re-cuts the same position from the same mosaic and returns
that data with its coordinate).  An exhausted stream stands for the
loop's unbounded failure to terminate. -/
def goodss_search (apSum : Mat → ℚ → ℚ) (size : ℕ) : List Candidate → Option Candidate
  | [] => none
  | c :: rest =>
      if goodss_accept apSum size c then some c else goodss_search apSum size rest

end BackgroundModule

/-- Interpolation at an exact grid node returns the stored value. -/
theorem interpLin_grid (A : Mat) (fill : ℚ) (i j : ℕ)
    (hi : i < A.rows) (hj : j < A.cols) :
    interpLin A fill ((i : ℚ) - ((A.rows : ℚ) - 1) / 2)
      ((j : ℚ) - ((A.cols : ℚ) - 1) / 2) = A.data i j := by
  have hu : ((i : ℚ) - ((A.rows : ℚ) - 1) / 2) + ((A.rows : ℚ) - 1) / 2 = (i : ℚ) := by
    ring
  have hv : ((j : ℚ) - ((A.cols : ℚ) - 1) / 2) + ((A.cols : ℚ) - 1) / 2 = (j : ℚ) := by
    ring
  have hile : (i : ℚ) ≤ (A.rows : ℚ) - 1 := by
    have : (i : ℚ) + 1 ≤ (A.rows : ℚ) := by exact_mod_cast hi
    linarith
  have hjle : (j : ℚ) ≤ (A.cols : ℚ) - 1 := by
    have : (j : ℚ) + 1 ≤ (A.cols : ℚ) := by exact_mod_cast hj
    linarith
  unfold interpLin
  rw [hu, hv]
  rw [if_neg]
  · have hfi : (Int.floor ((i : ℚ))).toNat = i := by
      rw [Int.floor_natCast]; exact Int.toNat_natCast i
    have hfj : (Int.floor ((j : ℚ))).toNat = j := by
      rw [Int.floor_natCast]; exact Int.toNat_natCast j
    rw [hfi, hfj]
    ring_nf
  · push_neg
    refine ⟨by positivity, hile, by positivity, hjle⟩

/-- `zoom_contents` at scale factor 1 is the identity on the array (same
shape, same in-range entries), with or without flux conservation. -/
theorem zoom_contents_one_eqOn (A : Mat) (conserve : Bool) (fill : ℚ) :
    (zoom_contents A 1 conserve fill).EqOn A := by
  refine ⟨rfl, rfl, fun i hi j hj => ?_⟩
  show (let x := ((i : ℚ) - ((A.rows : ℚ) - 1) / 2) / 1
        let y := ((j : ℚ) - ((A.cols : ℚ) - 1) / 2) / 1
        let out := interpLin A fill x y
        if conserve then out / 1 ^ 2 else out) = A.data i j
  simp only [div_one, one_pow]
  rw [interpLin_grid A fill i j hi hj]
  cases conserve <;> simp

/-- Resampling an all-zero array yields an all-zero array (both
interpolation branches produce zero). -/
theorem zoom_contents_const_zero (r c : ℕ) (s : ℚ) (conserve : Bool) :
    zoom_contents (Mat.const r c 0) s conserve 0 = Mat.const r c 0 := by
  have hz : ∀ x y : ℚ, interpLin ⟨r, c, fun _ _ => 0⟩ 0 x y = 0 := by
    intro x y
    unfold interpLin
    dsimp only
    split
    · rfl
    · ring
  refine Mat.extEq rfl rfl fun i j => ?_
  simp only [zoom_contents, Mat.const, hz]
  cases conserve <;> simp

/-- With `rebinning`, `size_correction` and `fixed_grid` all disabled and
an order-0 resize that is the identity at scale factor 1, the resampling
step returns the unit-normalized array unchanged. -/
theorem rebinResampled_noop_scipy (o : Oracles) (cfg : Config) (st : ArtificialRedshift.PState)
    (hr : cfg.rebinning = false) (hs : cfg.size_correction = false)
    (hf : cfg.fixed_grid = false) (hz : ∀ M, o.scipy_zoom M 1 = M) :
    ArtificialRedshift.rebinResampled o cfg st = st.final.scalarDiv st.final.totalSum := by
  unfold ArtificialRedshift.rebinResampled ArtificialRedshift.scaleFactorOf
    ArtificialRedshift.sizeCorrectionOf
  rw [hr, hs, hf]
  simp only [Bool.false_eq_true, if_false, one_mul]
  exact hz _

/-- With `rebinning`, `size_correction` and `fixed_grid` all disabled
(`fixed_grid` off routes through scipy's order-0 resize, assumed to be the
identity at scale 1) and nonzero total flux, the `geometric_rebinning`
stage returns `final` literally unchanged. -/
theorem geometric_rebinning_final_id (o : Oracles) (cfg : Config)
    (st : ArtificialRedshift.PState)
    (hr : cfg.rebinning = false) (hs : cfg.size_correction = false)
    (hf : cfg.fixed_grid = false) (hz : ∀ M, o.scipy_zoom M 1 = M)
    (hflux : st.final.totalSum ≠ 0) :
    (ArtificialRedshift.geometric_rebinning o cfg st).final = st.final := by
  show ((ArtificialRedshift.rebinResampled o cfg st).scalarDiv
      (ArtificialRedshift.rebinResampled o cfg st).totalSum).scalarMul st.final.totalSum
    = st.final
  rw [rebinResampled_noop_scipy o cfg st hr hs hf hz]
  rw [Mat.totalSum_scalarDiv, div_self hflux]
  refine Mat.extEq rfl rfl fun i j => ?_
  show st.final.data i j / st.final.totalSum / 1 * st.final.totalSum = st.final.data i j
  rw [div_one, div_mul_cancel₀ _ hflux]

/-- With `rebinning` and `size_correction` disabled but `fixed_grid`
enabled, the stage routes through `zoom_contents` at scale 1, so `final`
is unchanged as an array (same shape and in-range entries) whenever the
total flux is nonzero. -/
theorem geometric_rebinning_final_eqOn_fixed (o : Oracles) (cfg : Config)
    (st : ArtificialRedshift.PState)
    (hr : cfg.rebinning = false) (hs : cfg.size_correction = false)
    (hf : cfg.fixed_grid = true) (hflux : st.final.totalSum ≠ 0) :
    ((ArtificialRedshift.geometric_rebinning o cfg st).final).EqOn st.final := by
  have hreb : ArtificialRedshift.rebinResampled o cfg st
      = zoom_contents (st.final.scalarDiv st.final.totalSum) 1 false 0 := by
    unfold ArtificialRedshift.rebinResampled ArtificialRedshift.scaleFactorOf
      ArtificialRedshift.sizeCorrectionOf
    rw [hr, hs, hf]
    simp
  have hEq := zoom_contents_one_eqOn (st.final.scalarDiv st.final.totalSum) false 0
  have hsum : (ArtificialRedshift.rebinResampled o cfg st).totalSum = 1 := by
    rw [hreb, Mat.totalSum_congr hEq, Mat.totalSum_scalarDiv, div_self hflux]
  refine ⟨?_, ?_, ?_⟩
  · show (ArtificialRedshift.rebinResampled o cfg st).rows = st.final.rows
    rw [hreb]; rfl
  · show (ArtificialRedshift.rebinResampled o cfg st).cols = st.final.cols
    rw [hreb]; rfl
  · intro i hi j hj
    show (ArtificialRedshift.rebinResampled o cfg st).data i j
        / (ArtificialRedshift.rebinResampled o cfg st).totalSum * st.final.totalSum
      = st.final.data i j
    rw [hsum, div_one, hreb]
    have hi2 : i < (ArtificialRedshift.rebinResampled o cfg st).rows := hi
    have hj2 : j < (ArtificialRedshift.rebinResampled o cfg st).cols := hj
    rw [hreb] at hi2 hj2
    rw [hEq.2.2 i hi2 j hj2]
    show st.final.data i j / st.final.totalSum * st.final.totalSum = st.final.data i j
    rw [div_mul_cancel₀ _ hflux]

namespace ArtificialRedshift

/-- Bookkeeping fields that the header-writing claims track: the stored
factors together with the frames and magnitude they are computed from. -/
def PState.hdrMeta (st : PState) :
    (ℚ × ℚ × ℚ × ℚ × ℚ) × (ObservationFrame × ObservationFrame × ℚ) :=
  ((st.scale_factor, st.size_correction_factor, st.dimming_factor,
      st.evo_factor, st.mag_correction),
    (st.initial_frame, st.target_frame, st.MAG))

theorem cutout_source_framesMag (o : Oracles) (cfg : Config) (st : PState) :
    (cutout_source o cfg st).initial_frame = st.initial_frame ∧
    (cutout_source o cfg st).target_frame = st.target_frame ∧
    (cutout_source o cfg st).MAG = st.MAG ∧
    (cutout_source o cfg st).image = st.image := by
  unfold cutout_source
  split <;> exact ⟨rfl, rfl, rfl, rfl⟩

theorem geometric_rebinning_sets (o : Oracles) (cfg : Config) (st : PState) :
    (geometric_rebinning o cfg st).scale_factor = scaleFactorOf o cfg st ∧
    (geometric_rebinning o cfg st).size_correction_factor = sizeCorrectionOf o cfg st ∧
    (geometric_rebinning o cfg st).initial_frame = st.initial_frame ∧
    (geometric_rebinning o cfg st).target_frame = st.target_frame ∧
    (geometric_rebinning o cfg st).MAG = st.MAG := by
  exact ⟨rfl, rfl, rfl, rfl, rfl⟩

theorem apply_dimming_sets (o : Oracles) (cfg : Config) (st : PState)
    (hd : cfg.dimming = true) :
    (apply_dimming o cfg st).dimming_factor
      = (o.DL st.initial_frame.redshift / o.DL st.target_frame.redshift) ^ 2 ∧
    (apply_dimming o cfg st).scale_factor = st.scale_factor ∧
    (apply_dimming o cfg st).size_correction_factor = st.size_correction_factor ∧
    (apply_dimming o cfg st).initial_frame = st.initial_frame ∧
    (apply_dimming o cfg st).target_frame = st.target_frame ∧
    (apply_dimming o cfg st).MAG = st.MAG := by
  unfold apply_dimming
  rw [hd]
  exact ⟨rfl, rfl, rfl, rfl, rfl, rfl⟩

theorem evolution_correction_sets (o : Oracles) (cfg : Config) (st : PState)
    (he : cfg.evo = true) :
    (evolution_correction o cfg st).mag_correction
      = st.MAG - st.MAG * o.powq (1 + st.target_frame.redshift) cfg.evo_alpha ∧
    (evolution_correction o cfg st).evo_factor
      = o.powq 10 (-(2/5) *
          (st.MAG - st.MAG * o.powq (1 + st.target_frame.redshift) cfg.evo_alpha)) ∧
    (evolution_correction o cfg st).scale_factor = st.scale_factor ∧
    (evolution_correction o cfg st).size_correction_factor = st.size_correction_factor ∧
    (evolution_correction o cfg st).dimming_factor = st.dimming_factor ∧
    (evolution_correction o cfg st).initial_frame = st.initial_frame ∧
    (evolution_correction o cfg st).target_frame = st.target_frame ∧
    (evolution_correction o cfg st).MAG = st.MAG := by
  unfold evolution_correction
  rw [he]
  exact ⟨rfl, rfl, rfl, rfl, rfl, rfl, rfl, rfl⟩

theorem convolve_psf_hdrMeta (o : Oracles) (cfg : Config) (st : PState) :
    (convolve_psf o cfg st).hdrMeta = st.hdrMeta := by
  unfold convolve_psf
  split <;> rfl

theorem apply_shot_noise_hdrMeta (o : Oracles) (cfg : Config) (st : PState) :
    (apply_shot_noise o cfg st).hdrMeta = st.hdrMeta := by
  unfold apply_shot_noise
  split <;> rfl

theorem crop_for_network_hdrMeta (size : ℕ) (st : PState) :
    (crop_for_network size st).hdrMeta = st.hdrMeta ∧
    (crop_for_network size st).final = st.final := by
  unfold crop_for_network
  split <;> exact ⟨rfl, rfl⟩

theorem compositeOnto_hdrMeta (st : PState) (bgM : Mat) (st' : PState)
    (h : compositeOnto st bgM = .ok st') : st'.hdrMeta = st.hdrMeta := by
  simp only [compositeOnto] at h
  split at h <;> split at h
  all_goals try exact Except.noConfusion h
  all_goals rw [Except.ok.injEq] at h
  all_goals subst h
  all_goals rfl

theorem add_background_hdrMeta (o : Oracles) (cfg : Config) (st st' : PState)
    (h : add_background o cfg st = .ok st') : st'.hdrMeta = st.hdrMeta := by
  unfold add_background at h
  split at h
  · split at h
    · exact compositeOnto_hdrMeta st _ st' h
    · split at h
      · exact Except.noConfusion h
      · exact compositeOnto_hdrMeta st _ st' h
  · rw [Except.ok.injEq] at h
    subst h
    rfl

end ArtificialRedshift

/-- Inversion for a mapped `Except` that produced a success. -/
theorem except_map_ok {α β γ : Type} (f : α → β) (e : Except γ α) (b : β)
    (h : Except.map f e = .ok b) : ∃ a, e = .ok a ∧ b = f a := by
  cases e with
  | error err => simp [Except.map] at h
  | ok a =>
      refine ⟨a, rfl, ?_⟩
      simp [Except.map] at h
      exact h.symm

section ConcreteEvaluation

attribute [local semireducible] Rat.mul Rat.inv Rat.add Rat.sub

/-- Name that `fromrawdata` actually binds the source frame to. -/
def currentFrameName : String := "current_frame"

/-- C7: for every 2-D array, `zoom_contents` called with scale factor 1 and
flux conservation enabled returns the input unchanged at every pixel (in
particular at every interior pixel, same shape), and its total sum equals
the input's total sum. -/
theorem c7_zoom_contents_scale_one_identity (A : Mat) (fill : ℚ) :
    (zoom_contents A 1 true fill).EqOn A ∧
    (zoom_contents A 1 true fill).totalSum = A.totalSum :=
  ⟨zoom_contents_one_eqOn A true fill,
   Mat.totalSum_congr (zoom_contents_one_eqOn A true fill)⟩

/-- C8: for every input, `fromrawdata` fails with a `NameError` on the
unbound name `initial_frame` (the source frame was bound to
`current_frame` instead) and never yields an `ArtificialRedshift`
instance; moreover the call it attempts passes fewer arguments than the
constructor requires (the `MAG` argument is omitted). -/
theorem c8_fromrawdata_never_constructs :
    ∀ (o : Oracles) (image psf : Mat) (bg : Option Mat) (z1 z2 p1 p2 e1 e2 : ℚ),
      (ArtificialRedshift.fromrawdata o image psf bg z1 z2 p1 p2 e1 e2
          = .error (PyErr.nameError initialFrameName)) ∧
      (∀ st, ArtificialRedshift.fromrawdata o image psf bg z1 z2 p1 p2 e1 e2
          ≠ .ok st) ∧
      initialFrameName ∉ ArtificialRedshift.fromrawdata_scope ∧
      currentFrameName ∈ ArtificialRedshift.fromrawdata_scope ∧
      ArtificialRedshift.fromrawdata_call_nargs
        < ArtificialRedshift.init_required_nargs := by
  intro o image psf bg z1 z2 p1 p2 e1 e2
  have hmem : initialFrameName ∉ ArtificialRedshift.fromrawdata_scope := by decide
  have heq : ArtificialRedshift.fromrawdata o image psf bg z1 z2 p1 p2 e1 e2
      = .error (PyErr.nameError initialFrameName) := by
    unfold ArtificialRedshift.fromrawdata
    rw [if_neg hmem]
  refine ⟨heq, ?_, hmem, by decide, by decide⟩
  intro st hcontra
  rw [heq] at hcontra
  exact Except.noConfusion hcontra

/-- C9: every call to the standalone samplers `find_bg_section` and
`find_bg_coords` fails with a `NameError` on `random_flips` (never defined
or imported in the repository) before any size check, so the documented
`IndexError('Galaxy Image larger than BG')` is unreachable in them. -/
theorem c9_standalone_samplers_name_error :
    ∀ (o : Oracles) (bg img : Mat),
      BackgroundModule.find_bg_section o bg img
          = .error (PyErr.nameError randomFlipsName) ∧
      BackgroundModule.find_bg_coords o bg img
          = .error (PyErr.nameError randomFlipsName) ∧
      BackgroundModule.find_bg_section o bg img
          ≠ .error (PyErr.indexError galaxyMsg) ∧
      BackgroundModule.find_bg_coords o bg img
          ≠ .error (PyErr.indexError galaxyMsg) := by
  intro o bg img
  refine ⟨rfl, rfl, ?_, ?_⟩
  · intro hc
    have heq := Eq.trans
      (Eq.symm (show BackgroundModule.find_bg_section o bg img
        = .error (PyErr.nameError randomFlipsName) from rfl)) hc
    exact PyErr.noConfusion (Except.error.inj heq)
  · intro hc
    have heq := Eq.trans
      (Eq.symm (show BackgroundModule.find_bg_coords o bg img
        = .error (PyErr.nameError randomFlipsName) from rfl)) hc
    exact PyErr.noConfusion (Except.error.inj heq)

/-- Evaluation of the centered slice window used by `crop_for_network`
when it is entirely in range. -/
theorem sliceIdx_center (n k half : ℕ) (hk : half ≤ k) (hkh : k + half ≤ n) :
    sliceIdx n ((k : ℤ) - (half : ℤ)) ((k : ℤ) + (half : ℤ)) = (k - half, 2 * half) := by
  unfold sliceIdx
  dsimp only
  rw [if_neg (by omega), if_neg (by omega)]
  rw [Prod.mk.injEq]
  constructor
  · omega
  · omega

/-- What the crop stage actually produces on an oversized array whose
selected window fits: a square window of side `2*(size/2)` (one pixel
short of `size` when `size` is odd) whose axis-0 anchor is the integer
half-size offset from the integer center of the SECOND dimension and
whose axis-1 anchor is that of the FIRST dimension — the `yc`/`xc` axis
swap of the source.  On square arrays the two centers coincide. -/
def specCenterCrop (A : Mat) (size : ℕ) : Mat :=
  ⟨2 * (size / 2), 2 * (size / 2),
    fun i j => A.data (A.cols / 2 - size / 2 + i) (A.rows / 2 - size / 2 + j)⟩

/-- C1 (amended): for every `final` whose first dimension is at or below
the configured size, the crop returns `final` unchanged.  For every
`final` whose first dimension exceeds the size, the crop slices a window
of side `2*(size/2)` per axis — exactly the configured size only when it
is even — anchored at the swapped integer centers (`yc` from the second
dimension indexes axis 0, `xc` from the first indexes axis 1), stated
here for every array on which that swapped window lies in range; on
non-square arrays where it does not, numpy's slice clamping truncates the
result further (see the 121×201 counterexample input). -/
theorem c1_crop_for_network_amended (size : ℕ) (st : ArtificialRedshift.PState) :
    (st.final.rows ≤ size →
      (ArtificialRedshift.crop_for_network size st).final_crop = some st.final) ∧
    (st.final.rows > size →
      size / 2 ≤ st.final.cols / 2 →
      st.final.cols / 2 + size / 2 ≤ st.final.rows →
      size / 2 ≤ st.final.rows / 2 →
      st.final.rows / 2 + size / 2 ≤ st.final.cols →
      (ArtificialRedshift.crop_for_network size st).final_crop
        = some (specCenterCrop st.final size)) := by
  constructor
  · intro hle
    unfold ArtificialRedshift.crop_for_network
    rw [if_neg (by omega)]
  · intro hgt h1 h2 h3 h4
    unfold ArtificialRedshift.crop_for_network
    rw [if_pos hgt]
    show some (st.final.slice2 _ _ _ _) = some (specCenterCrop st.final size)
    apply congrArg some
    unfold Mat.slice2 specCenterCrop
    dsimp only
    rw [sliceIdx_center st.final.rows (st.final.cols / 2) (size / 2) h1 h2,
        sliceIdx_center st.final.cols (st.final.rows / 2) (size / 2) h3 h4]

/-- Placeholder PSF used by concrete instantiations. -/
def dummyPsf : Mat := Mat.const 1 1 1

/-- Placeholder observation frame used by concrete instantiations. -/
def dummyFrame : ObservationFrame := ⟨0, 1, 1⟩

/-- Concrete oracle instance: constant luminosity distance, trivial power
and noise draws, identity convolution and resize. -/
def dummyOracles : Oracles :=
  { DL := fun _ => 1, powq := fun _ _ => 1, sqrtq := fun _ => 0,
    segmentation := fun _ _ _ => false, measureStd := fun _ => 0,
    convolve2d := fun A _ => A, scipy_zoom := fun A _ => A,
    randn := fun _ _ => 0, normal := fun _ _ _ => 0,
    randint2 := fun _ _ => (0, 0) }

/-- Concrete non-square 8×10 image with distinct entries. -/
def c1WitMat : Mat := ⟨8, 10, fun i j => (i : ℚ) * 100 + (j : ℚ)⟩

/-- Pipeline state holding the 8×10 image as `final`. -/
def c1WitState : ArtificialRedshift.PState :=
  ArtificialRedshift.initState c1WitMat dummyPsf none dummyFrame dummyFrame 0 none

/-- Pipeline state holding a non-square 3×7 image as `final`. -/
def c1WitState2 : ArtificialRedshift.PState :=
  ArtificialRedshift.initState (Mat.const 3 7 5) dummyPsf none dummyFrame dummyFrame 0 none

/-- C1 witness: the amended crop behavior at concrete non-square inputs —
an 8×10 array cropped at size 5 (window in range, anchors swapped) and a
3×7 array left unchanged at size 5. -/
theorem c1_crop_for_network_witness :
    ((ArtificialRedshift.crop_for_network 5 c1WitState).final_crop
        = some (specCenterCrop c1WitState.final 5)) ∧
    ((ArtificialRedshift.crop_for_network 5 c1WitState2).final_crop
        = some c1WitState2.final) :=
  ⟨(c1_crop_for_network_amended 5 c1WitState).2 (by decide) (by decide)
      (by decide) (by decide) (by decide),
   (c1_crop_for_network_amended 5 c1WitState2).1 (by decide)⟩

/-- Pipeline state holding a 103×103 image as `final`. -/
def c1CexState : ArtificialRedshift.PState :=
  ArtificialRedshift.initState (Mat.const 103 103 1) dummyPsf none dummyFrame
    dummyFrame 0 none

/-- Pipeline state holding a non-square 121×201 image as `final`. -/
def c1CexState2 : ArtificialRedshift.PState :=
  ArtificialRedshift.initState (Mat.const 121 201 1) dummyPsf none dummyFrame
    dummyFrame 0 none

/-- C1 counterexample: a 103×103 `final` cropped at the default configured
size 101 yields a 100×100 array, not a 101×101 one, because the slice
spans `2*int(101/2) = 100` pixels per axis; and a non-square 121×201
`final` yields a 71×100 array — the code anchors axis 0 at
`yc = int(201/2) = 100` (the swapped center), so the row slice `50:150`
is clamped to the 121 rows — neither of the configured size nor centered
on the array's geometric center. -/
theorem c1_crop_for_network_counterexample :
    ((ArtificialRedshift.crop_for_network 101 c1CexState).final_crop.map Mat.rows
        = some 100) ∧
    ((ArtificialRedshift.crop_for_network 101 c1CexState).final_crop.map Mat.cols
        = some 100) ∧
    ((100 : ℕ) ≠ 101) ∧
    ((ArtificialRedshift.crop_for_network 101 c1CexState2).final_crop.map Mat.rows
        = some 71) ∧
    ((ArtificialRedshift.crop_for_network 101 c1CexState2).final_crop.map Mat.cols
        = some 100) ∧
    ((71 : ℕ) ≠ 101) := by
  refine ⟨by decide, by decide, by decide, by decide, by decide, by decide⟩

/-- C5 (amended): in the rejection-sampling search, every candidate whose
circular-aperture sum `LT` satisfies the coded condition
`LT == 0 or LT > 20 or LT > light_outside` is rejected and is never the
returned cutout; the first test is equality with zero, not
non-positivity, so strictly negative aperture sums do not trigger it. -/
theorem c5_goodss_aperture_rejection (apSum : Mat → ℚ → ℚ) (size : ℕ)
    (cs : List BackgroundModule.Candidate) (c : BackgroundModule.Candidate)
    (h : BackgroundModule.goodss_search apSum size cs = some c) :
    BackgroundModule.goodss_reject_aperture apSum size c = false := by
  induction cs with
  | nil => exact Option.noConfusion h
  | cons hd tl ih =>
      unfold BackgroundModule.goodss_search at h
      split at h
      · rename_i hacc
        rw [Option.some.injEq] at h
        subst h
        cases hrej : BackgroundModule.goodss_reject_aperture apSum size hd with
        | false => rfl
        | true =>
            exfalso
            unfold BackgroundModule.goodss_accept at hacc
            rw [hrej] at hacc
            cases hmin : hd.distances.min? <;> rw [hmin] at hacc <;> simp at hacc
      · exact ih h

/-- Aperture-photometry oracle used by the C5 witness: one quarter of the
total flux lies inside the aperture. -/
def c5WitApSum : Mat → ℚ → ℚ := fun A _ => A.totalSum / 4

/-- Candidate accepted by the loop in the C5 witness: cutout succeeded,
one catalog source at 2.5 pixels, faint positive sky data. -/
def c5WitCand : BackgroundModule.Candidate :=
  ⟨true, [5/2], Mat.const 6 6 (1/100)⟩

/-- C5 witness: the concrete 6-pixel search accepts `c5WitCand`, whose
aperture condition therefore evaluates to non-rejecting. -/
theorem c5_goodss_aperture_witness :
    BackgroundModule.goodss_reject_aperture c5WitApSum 6 c5WitCand = false :=
  c5_goodss_aperture_rejection c5WitApSum 6 [c5WitCand] c5WitCand (by rfl)

/-- Aperture-photometry oracle for the C5 counterexample: the aperture sum
is the strictly negative value -1 (possible on sky-subtracted data). -/
def c5CexApSum : Mat → ℚ → ℚ := fun _ _ => -1

/-- Cutout data for the C5 counterexample: half the pixels slightly
positive, half slightly negative, total zero. -/
def c5CexData : Mat := ⟨6, 6, fun i _ => if i < 3 then 1/10 else -(1/10)⟩

/-- Candidate drawn in the C5 counterexample. -/
def c5CexCand : BackgroundModule.Candidate := ⟨true, [5/2], c5CexData⟩

/-- C5 counterexample: a candidate whose circular-aperture sum is the
non-positive value -1 (and whose other checks pass) is accepted and
returned by the search loop, contradicting the claim that every
non-positive aperture sum is rejected — the code tests `LT == 0`, not
`LT <= 0`. -/
theorem c5_goodss_aperture_counterexample :
    (BackgroundModule.goodss_search c5CexApSum 6 [c5CexCand] = some c5CexCand) ∧
    (c5CexApSum c5CexCand.data ((6 : ℚ) / 3) = -1) ∧
    ((-1 : ℚ) ≤ 0) := by
  refine ⟨by rfl, rfl, by decide⟩

/-- C6 (amended): the `geometric_rebinning` stage conserves the recorded
total flux — for every oracle instance and every combination of the
`rebinning`, `size_correction` and `fixed_grid` toggles — provided the
working array's total sum is nonzero at entry AND the resampled array's
total sum is nonzero; the final renormalization divides by the latter, so
an input annihilated by the resampling (everything pushed out of the
fixed grid) escapes the conservation guarantee. -/
theorem c6_rebinning_flux_conservation (o : Oracles) (cfg : Config)
    (st : ArtificialRedshift.PState)
    (hflux : st.final.totalSum ≠ 0)
    (hres : (ArtificialRedshift.rebinResampled o cfg st).totalSum ≠ 0) :
    ((ArtificialRedshift.geometric_rebinning o cfg st).final).totalSum
      = st.final.totalSum := by
  show (((ArtificialRedshift.rebinResampled o cfg st).scalarDiv
      (ArtificialRedshift.rebinResampled o cfg st).totalSum).scalarMul
      st.final.totalSum).totalSum = st.final.totalSum
  rw [Mat.totalSum_scalarMul, Mat.totalSum_scalarDiv, div_self hres, one_mul]

/-- State carrying a 1×1 image of value 3. -/
def c6WitState : ArtificialRedshift.PState :=
  ArtificialRedshift.initState (Mat.const 1 1 3) dummyPsf none dummyFrame
    dummyFrame 0 none

/-- C6 witness: with the default configuration and trivial oracles the
rebinning stage preserves the total flux 3 of a 1×1 image. -/
theorem c6_rebinning_flux_witness :
    (ArtificialRedshift.geometric_rebinning dummyOracles Config.default
        c6WitState).final.totalSum = c6WitState.final.totalSum :=
  c6_rebinning_flux_conservation dummyOracles Config.default c6WitState
    (by decide) (by decide)

/-- Configuration of the C6 counterexample: rebinning and the fixed grid
enabled (defaults), size correction off. -/
def c6CexConfig : Config := { size_correction := false }

/-- Source frame of the C6 counterexample: z = 1, pixel scale 1. -/
def c6CexFrameI : ObservationFrame := ⟨1, 1, 1⟩

/-- Target frame of the C6 counterexample: z = 1, pixel scale 10, so the
geometric scale factor is exactly 1/10 (the luminosity distances cancel). -/
def c6CexFrameT : ObservationFrame := ⟨1, 10, 1⟩

/-- Oracles with the realistic constant luminosity distance 6790 (Mpc at
z = 1; only the ratio matters and it cancels). -/
def c6Oracles : Oracles := { dummyOracles with DL := fun _ => 6790 }

/-- A 3×3 ring: eight ones around a zero center; total sum 8. -/
def c6RingMat : Mat := ⟨3, 3, fun i j => if i = 1 ∧ j = 1 then 0 else 1⟩

/-- State carrying the ring image between frames producing scale 1/10. -/
def c6CexState : ArtificialRedshift.PState :=
  ArtificialRedshift.initState c6RingMat dummyPsf none c6CexFrameI c6CexFrameT
    0 none

/-- C6 counterexample: the ring enters the stage with nonzero total sum 8,
but demagnification by 1/10 pushes all eight ones outside the fixed grid
and samples only the zero center, so the resampled array sums to zero and
the stage output has total sum 0, not 8 — flux is not conserved for every
toggle combination even with nonzero entry sum. -/
theorem c6_rebinning_flux_counterexample :
    (c6CexState.final.totalSum = 8) ∧
    ((ArtificialRedshift.geometric_rebinning c6Oracles c6CexConfig
        c6CexState).final.totalSum = 0) ∧
    ((0 : ℚ) ≠ 8) := by
  refine ⟨by decide, by decide, by decide⟩

/-- C10: for every configuration (all-disabled included) the
`geometric_rebinning` stage unconditionally divides the working array by
its total pixel sum before any toggle is consulted, and no error branch
exists (the stage is a total function).  With a zero total sum the
division is unguarded: under the embedding's division-by-zero convention
the stage collapses every zero-sum input to the all-zero array of the
same shape (numpy instead produces non-finite values), destroying the
input and its flux either way — a nonzero total sum is a precondition for
a well-defined output.  The hypothesis on `scipy_zoom` records only that
the external order-0 resize maps an all-zero array to an all-zero array. -/
theorem c10_rebinning_division_unguarded (o : Oracles) (cfg : Config)
    (st : ArtificialRedshift.PState)
    (hz : ∀ s : ℚ, o.scipy_zoom (Mat.const st.final.rows st.final.cols 0) s
        = Mat.const st.final.rows st.final.cols 0)
    (hsum : st.final.totalSum = 0) :
    ((ArtificialRedshift.geometric_rebinning o cfg st).final
        = Mat.const st.final.rows st.final.cols 0) ∧
    (ArtificialRedshift.geometric_rebinning o cfg st).final.totalSum = 0 := by
  have h0 : st.final.scalarDiv st.final.totalSum
      = Mat.const st.final.rows st.final.cols 0 := by
    rw [hsum]
    exact Mat.extEq rfl rfl fun i j => div_zero _
  have hres : ArtificialRedshift.rebinResampled o cfg st
      = Mat.const st.final.rows st.final.cols 0 := by
    unfold ArtificialRedshift.rebinResampled
    dsimp only
    rw [h0]
    split
    · exact zoom_contents_const_zero _ _ _ _
    · exact hz _
  have hmain : (ArtificialRedshift.geometric_rebinning o cfg st).final
      = Mat.const st.final.rows st.final.cols 0 := by
    show ((ArtificialRedshift.rebinResampled o cfg st).scalarDiv
        (ArtificialRedshift.rebinResampled o cfg st).totalSum).scalarMul
        st.final.totalSum = Mat.const st.final.rows st.final.cols 0
    rw [hres, hsum, Mat.totalSum_const_zero]
    exact Mat.extEq rfl rfl fun i j => by
      show (0 : ℚ) / 0 * 0 = 0
      simp
  exact ⟨hmain, by rw [hmain, Mat.totalSum_const_zero]⟩

/-- A 1×2 image with entries 2 and -2: nonzero pixels, zero total sum. -/
def c10WitMat : Mat := ⟨1, 2, fun _ j => if j = 0 then 2 else -2⟩

/-- State carrying the zero-sum image. -/
def c10WitState : ArtificialRedshift.PState :=
  ArtificialRedshift.initState c10WitMat dummyPsf none dummyFrame dummyFrame
    0 none

/-- C10 witness: with every toggle disabled the stage still divides by the
zero total sum of the concrete image `[[2, -2]]` and collapses it to the
zero array. -/
theorem c10_rebinning_division_witness :
    ((ArtificialRedshift.geometric_rebinning dummyOracles allOffConfig
        c10WitState).final
      = Mat.const c10WitState.final.rows c10WitState.final.cols 0) ∧
    (ArtificialRedshift.geometric_rebinning dummyOracles allOffConfig
        c10WitState).final.totalSum = 0 :=
  c10_rebinning_division_unguarded dummyOracles allOffConfig c10WitState
    (fun _ => rfl) (by decide)

/-- C3 (amended): every stage other than geometric rebinning is an exact
no-op when its toggle is disabled (it returns the state unchanged and
raises nothing); the rebinning stage still executes its
normalize/resample/renormalize sequence, which leaves `final` unchanged
only when `rebinning` and `size_correction` are both disabled and the
total sum of `final` is nonzero (exactly so through the scipy path, up to
the fixed-grid interpolation's array identity otherwise); consequently,
with every toggle disabled and a raw input of nonzero total sum, the
end-to-end pipeline output equals the raw input image. -/
theorem c3_disabled_stages_noop (o : Oracles) :
    (∀ (cfg : Config) (st : ArtificialRedshift.PState), cfg.make_cutout = false →
        ArtificialRedshift.cutout_source o cfg st = st) ∧
    (∀ (cfg : Config) (st : ArtificialRedshift.PState), cfg.dimming = false →
        ArtificialRedshift.apply_dimming o cfg st = st) ∧
    (∀ (cfg : Config) (st : ArtificialRedshift.PState), cfg.evo = false →
        ArtificialRedshift.evolution_correction o cfg st = st) ∧
    (∀ (cfg : Config) (st : ArtificialRedshift.PState), cfg.convolve_with_psf = false →
        ArtificialRedshift.convolve_psf o cfg st = st) ∧
    (∀ (cfg : Config) (st : ArtificialRedshift.PState), cfg.shot_noise = false →
        ArtificialRedshift.apply_shot_noise o cfg st = st) ∧
    (∀ (cfg : Config) (st : ArtificialRedshift.PState), cfg.add_background = false →
        ArtificialRedshift.add_background o cfg st = Except.ok st) ∧
    (∀ (cfg : Config) (st : ArtificialRedshift.PState),
        cfg.rebinning = false → cfg.size_correction = false → cfg.fixed_grid = true →
        st.final.totalSum ≠ 0 →
        ((ArtificialRedshift.geometric_rebinning o cfg st).final).EqOn st.final) ∧
    (∀ (cfg : Config) (st : ArtificialRedshift.PState),
        cfg.rebinning = false → cfg.size_correction = false → cfg.fixed_grid = false →
        (∀ M, o.scipy_zoom M 1 = M) → st.final.totalSum ≠ 0 →
        (ArtificialRedshift.geometric_rebinning o cfg st).final = st.final) ∧
    (∀ (image psf : Mat) (bgOpt : Option Mat) (ini tgt : ObservationFrame)
        (MAG : ℚ) (pos : Option (ℕ × ℕ)),
        (∀ M, o.scipy_zoom M 1 = M) → image.totalSum ≠ 0 →
        ∀ st', ArtificialRedshift.runPipeline o allOffConfig image psf bgOpt ini
            tgt MAG pos = Except.ok st' →
          st'.final = image ∧ (image.rows ≤ 101 → st'.final_crop = some image)) ∧
    (∀ (image psf : Mat) (bgOpt : Option Mat) (ini tgt : ObservationFrame)
        (MAG : ℚ) (pos : Option (ℕ × ℕ)),
        (ArtificialRedshift.runPipeline o allOffConfig image psf bgOpt ini tgt
          MAG pos).isOk = true) := by
  refine ⟨?_, ?_, ?_, ?_, ?_, ?_, ?_, ?_, ?_, ?_⟩
  · intro cfg st h
    unfold ArtificialRedshift.cutout_source
    rw [h]
    rfl
  · intro cfg st h
    unfold ArtificialRedshift.apply_dimming
    rw [h]
    rfl
  · intro cfg st h
    unfold ArtificialRedshift.evolution_correction
    rw [h]
    rfl
  · intro cfg st h
    unfold ArtificialRedshift.convolve_psf
    rw [h]
    rfl
  · intro cfg st h
    unfold ArtificialRedshift.apply_shot_noise
    rw [h]
    rfl
  · intro cfg st h
    unfold ArtificialRedshift.add_background
    rw [h]
    rfl
  · intro cfg st h1 h2 h3 h4
    exact geometric_rebinning_final_eqOn_fixed o cfg st h1 h2 h3 h4
  · intro cfg st h1 h2 h3 h4 h5
    exact geometric_rebinning_final_id o cfg st h1 h2 h3 h4 h5
  · intro image psf bgOpt ini tgt MAG pos hz hflux st' hrun
    have hok : ArtificialRedshift.crop_for_network 101
        (ArtificialRedshift.geometric_rebinning o allOffConfig
          (ArtificialRedshift.initState image psf bgOpt ini tgt MAG pos)) = st' :=
      Except.ok.inj hrun
    subst hok
    have hGfin : (ArtificialRedshift.geometric_rebinning o allOffConfig
        (ArtificialRedshift.initState image psf bgOpt ini tgt MAG pos)).final
          = image :=
      geometric_rebinning_final_id o allOffConfig _ rfl rfl rfl hz hflux
    constructor
    · rw [(ArtificialRedshift.crop_for_network_hdrMeta 101 _).2]
      exact hGfin
    · intro hrows
      unfold ArtificialRedshift.crop_for_network
      rw [if_neg (by rw [hGfin]; omega)]
      show some (ArtificialRedshift.geometric_rebinning o allOffConfig
        (ArtificialRedshift.initState image psf bgOpt ini tgt MAG pos)).final
          = some image
      rw [hGfin]
  · intro image psf bgOpt ini tgt MAG pos
    rfl

/-- The 2×2 all-ones image used by the C3 witness (total sum 4). -/
def c3WitMat : Mat := Mat.const 2 2 1

/-- State carrying the C3 witness image. -/
def c3WitState : ArtificialRedshift.PState :=
  ArtificialRedshift.initState c3WitMat dummyPsf none dummyFrame dummyFrame 0 none

/-- Configuration with rebinning and size correction off but the fixed
grid on, for the interpolation route of the rebinning no-op. -/
def c3FixedConfig : Config := { rebinning := false, size_correction := false }

/-- The state produced by the all-disabled pipeline on the witness image. -/
def c3RunState : ArtificialRedshift.PState :=
  ArtificialRedshift.crop_for_network 101
    (ArtificialRedshift.geometric_rebinning dummyOracles allOffConfig
      (ArtificialRedshift.initState c3WitMat dummyPsf none dummyFrame dummyFrame
        0 none))

/-- C3 witness: each disabled stage is a no-op on the concrete state, and
the all-disabled pipeline on the 2×2 ones image returns it unchanged. -/
theorem c3_disabled_stages_witness :
    (ArtificialRedshift.cutout_source dummyOracles allOffConfig c3WitState
        = c3WitState) ∧
    (ArtificialRedshift.apply_dimming dummyOracles allOffConfig c3WitState
        = c3WitState) ∧
    (ArtificialRedshift.evolution_correction dummyOracles allOffConfig c3WitState
        = c3WitState) ∧
    (ArtificialRedshift.convolve_psf dummyOracles allOffConfig c3WitState
        = c3WitState) ∧
    (ArtificialRedshift.apply_shot_noise dummyOracles allOffConfig c3WitState
        = c3WitState) ∧
    (ArtificialRedshift.add_background dummyOracles allOffConfig c3WitState
        = Except.ok c3WitState) ∧
    ((ArtificialRedshift.geometric_rebinning dummyOracles c3FixedConfig
        c3WitState).final.EqOn c3WitState.final) ∧
    ((ArtificialRedshift.geometric_rebinning dummyOracles allOffConfig
        c3WitState).final = c3WitState.final) ∧
    (c3RunState.final = c3WitMat ∧ c3RunState.final_crop = some c3WitMat) ∧
    ((ArtificialRedshift.runPipeline dummyOracles allOffConfig c3WitMat dummyPsf
        none dummyFrame dummyFrame 0 none).isOk = true) := by
  obtain ⟨h1, h2, h3, h4, h5, h6, h7, h8, h9, h10⟩ :=
    c3_disabled_stages_noop dummyOracles
  refine ⟨h1 _ _ rfl, h2 _ _ rfl, h3 _ _ rfl, h4 _ _ rfl, h5 _ _ rfl, h6 _ _ rfl,
    h7 _ _ rfl rfl rfl (by decide), h8 _ _ rfl rfl rfl (fun _ => rfl) (by decide),
    ?_, h10 c3WitMat dummyPsf none dummyFrame dummyFrame 0 none⟩
  have h9c := h9 c3WitMat dummyPsf none dummyFrame dummyFrame 0 none
    (fun _ => rfl) (by decide) c3RunState rfl
  exact ⟨h9c.1, h9c.2 (by decide)⟩

/-- The 1×2 image `[[1, -1]]` of the C3 counterexample: nonzero pixels
with zero total sum. -/
def c3CexMat : Mat := ⟨1, 2, fun _ j => if j = 0 then 1 else -1⟩

/-- C3 counterexample: with every toggle disabled, the pipeline run on the
zero-sum input `[[1, -1]]` succeeds but its output is NOT equal to the raw
input (the rebinning stage's unconditional division by the zero total sum
destroys it), refuting the unconditional no-op/end-to-end identity. -/
theorem c3_disabled_stages_counterexample :
    ((ArtificialRedshift.runPipeline dummyOracles allOffConfig c3CexMat dummyPsf
        none dummyFrame dummyFrame 0 none).map
          (fun st => decide (st.final.EqOn c3CexMat)) = Except.ok false) ∧
    (c3CexMat.totalSum = 0) := by
  refine ⟨by decide, by decide⟩

/-- C4 (amended): for every pipeline run with rebinning, dimming and
evolution enabled, the written header satisfies: `REBIN` holds the
geometric scale factor alone (NOT multiplied by the size-correction
factor — the code stores `self.scale_factor`), which equals the
luminosity-distance/pixel-scale ratio; `DIM_FACT` holds the dimming
multiplier `(D_L(z_i)/D_L(z_t))²`; `EVO_FACT` holds the evolution
multiplier `10^(-0.4·Δm)` with `Δm = MAG - MAG·(1+z_t)^alpha`;
`EV_ALPHA` holds the configured exponent; and each key is present in the
header exactly when its toggle is enabled (for every configuration and
state). -/
theorem c4_writeto_header_amended (o : Oracles) (cfg : Config) (image psf : Mat)
    (bgOpt : Option Mat) (ini tgt : ObservationFrame) (MAG : ℚ)
    (pos : Option (ℕ × ℕ)) (st : ArtificialRedshift.PState)
    (hreb : cfg.rebinning = true) (hdim : cfg.dimming = true)
    (hevo : cfg.evo = true)
    (hrun : ArtificialRedshift.runPipeline o cfg image psf bgOpt ini tgt MAG pos
        = Except.ok st) :
    ((ArtificialRedshift.writeto_header cfg st).keys.lookup ArtificialRedshift.HKey.REBIN
        = some st.scale_factor) ∧
    (st.scale_factor
        = (o.DL ini.redshift * (1 + tgt.redshift) ^ 2 * ini.pixelscale)
          / (o.DL tgt.redshift * (1 + ini.redshift) ^ 2 * tgt.pixelscale)) ∧
    ((ArtificialRedshift.writeto_header cfg st).keys.lookup ArtificialRedshift.HKey.DIM_FACT
        = some st.dimming_factor) ∧
    (st.dimming_factor = (o.DL ini.redshift / o.DL tgt.redshift) ^ 2) ∧
    ((ArtificialRedshift.writeto_header cfg st).keys.lookup ArtificialRedshift.HKey.EVO_FACT
        = some st.evo_factor) ∧
    (st.evo_factor = o.powq 10 (-(2/5) * st.mag_correction)) ∧
    (st.mag_correction
        = MAG - MAG * o.powq (1 + tgt.redshift) cfg.evo_alpha) ∧
    ((ArtificialRedshift.writeto_header cfg st).keys.lookup ArtificialRedshift.HKey.EV_ALPHA
        = some cfg.evo_alpha) ∧
    (∀ (cfg2 : Config) (st2 : ArtificialRedshift.PState),
        (((ArtificialRedshift.writeto_header cfg2 st2).keys.lookup
            ArtificialRedshift.HKey.REBIN).isSome = cfg2.rebinning) ∧
        (((ArtificialRedshift.writeto_header cfg2 st2).keys.lookup
            ArtificialRedshift.HKey.DIM_FACT).isSome = cfg2.dimming) ∧
        (((ArtificialRedshift.writeto_header cfg2 st2).keys.lookup
            ArtificialRedshift.HKey.EVO_FACT).isSome = cfg2.evo) ∧
        (((ArtificialRedshift.writeto_header cfg2 st2).keys.lookup
            ArtificialRedshift.HKey.EV_ALPHA).isSome = cfg2.evo)) := by
  unfold ArtificialRedshift.runPipeline at hrun
  dsimp only at hrun
  obtain ⟨st7, hadd, hcrop⟩ := except_map_ok _ _ _ hrun
  subst hcrop
  have hM : (ArtificialRedshift.crop_for_network cfg.output_size st7).hdrMeta
      = (ArtificialRedshift.evolution_correction o cfg
          (ArtificialRedshift.apply_dimming o cfg
            (ArtificialRedshift.geometric_rebinning o cfg
              (ArtificialRedshift.cutout_source o cfg
                (ArtificialRedshift.initState image psf bgOpt ini tgt MAG
                  pos))))).hdrMeta := by
    rw [(ArtificialRedshift.crop_for_network_hdrMeta cfg.output_size st7).1]
    rw [ArtificialRedshift.add_background_hdrMeta o cfg _ st7 hadd]
    rw [ArtificialRedshift.apply_shot_noise_hdrMeta,
        ArtificialRedshift.convolve_psf_hdrMeta]
  unfold ArtificialRedshift.PState.hdrMeta at hM
  simp only [Prod.mk.injEq] at hM
  obtain ⟨⟨hsc, hszc, hdf, hef, hmc⟩, hif, htf, hmag⟩ := hM
  have hCf := ArtificialRedshift.cutout_source_framesMag o cfg
    (ArtificialRedshift.initState image psf bgOpt ini tgt MAG pos)
  have hCi : (ArtificialRedshift.cutout_source o cfg
      (ArtificialRedshift.initState image psf bgOpt ini tgt MAG pos)).initial_frame
      = ini := hCf.1
  have hCt : (ArtificialRedshift.cutout_source o cfg
      (ArtificialRedshift.initState image psf bgOpt ini tgt MAG pos)).target_frame
      = tgt := hCf.2.1
  have hCm : (ArtificialRedshift.cutout_source o cfg
      (ArtificialRedshift.initState image psf bgOpt ini tgt MAG pos)).MAG
      = MAG := hCf.2.2.1
  have hGs := ArtificialRedshift.geometric_rebinning_sets o cfg
    (ArtificialRedshift.cutout_source o cfg
      (ArtificialRedshift.initState image psf bgOpt ini tgt MAG pos))
  have hGi := hGs.2.2.1.trans hCi
  have hGt := hGs.2.2.2.1.trans hCt
  have hGm := hGs.2.2.2.2.trans hCm
  have hDs := ArtificialRedshift.apply_dimming_sets o cfg
    (ArtificialRedshift.geometric_rebinning o cfg
      (ArtificialRedshift.cutout_source o cfg
        (ArtificialRedshift.initState image psf bgOpt ini tgt MAG pos))) hdim
  have hDt := hDs.2.2.2.2.1.trans hGt
  have hDm := hDs.2.2.2.2.2.trans hGm
  have hEv := ArtificialRedshift.evolution_correction_sets o cfg
    (ArtificialRedshift.apply_dimming o cfg
      (ArtificialRedshift.geometric_rebinning o cfg
        (ArtificialRedshift.cutout_source o cfg
          (ArtificialRedshift.initState image psf bgOpt ini tgt MAG pos)))) hevo
  refine ⟨?_, ?_, ?_, ?_, ?_, ?_, ?_, ?_, ?_⟩
  · unfold ArtificialRedshift.writeto_header
    rw [hreb, hdim, hevo]
    rfl
  · rw [hsc, hEv.2.2.1, hDs.2.1, hGs.1]
    unfold ArtificialRedshift.scaleFactorOf
    rw [hreb, hCi, hCt]
    rfl
  · unfold ArtificialRedshift.writeto_header
    rw [hreb, hdim, hevo]
    rfl
  · rw [hdf, hEv.2.2.2.2.1, hDs.1, hGi, hGt]
  · unfold ArtificialRedshift.writeto_header
    rw [hreb, hdim, hevo]
    rfl
  · rw [hef, hEv.2.1, hmc, hEv.1]
  · rw [hmc, hEv.1, hDm, hDt]
  · unfold ArtificialRedshift.writeto_header
    rw [hreb, hdim, hevo]
    rfl
  · intro cfg2 st2
    unfold ArtificialRedshift.writeto_header
    cases hr : cfg2.rebinning <;> cases hd2 : cfg2.dimming <;>
      cases he2 : cfg2.evo <;> exact ⟨rfl, rfl, rfl, rfl⟩

/-- Configuration of the C4 witness: rebinning, dimming and evolution
enabled (defaults); size correction off; the stages needing external data
(cutout, convolution, noise, background) off. -/
def c4WitConfig : Config :=
  { add_background := false, convolve_with_psf := false, make_cutout := false,
    shot_noise := false, size_correction := false }

/-- Source frame of the C4 witness: z = 1. -/
def c4WitFrameI : ObservationFrame := ⟨1, 1, 1⟩

/-- Target frame of the C4 witness: z = 2. -/
def c4WitFrameT : ObservationFrame := ⟨2, 1, 1⟩

/-- The state produced by the C4 witness run on a 1×1 unit image. -/
def c4WitState : ArtificialRedshift.PState :=
  ArtificialRedshift.crop_for_network 101
    (ArtificialRedshift.apply_shot_noise dummyOracles c4WitConfig
      (ArtificialRedshift.convolve_psf dummyOracles c4WitConfig
        (ArtificialRedshift.evolution_correction dummyOracles c4WitConfig
          (ArtificialRedshift.apply_dimming dummyOracles c4WitConfig
            (ArtificialRedshift.geometric_rebinning dummyOracles c4WitConfig
              (ArtificialRedshift.cutout_source dummyOracles c4WitConfig
                (ArtificialRedshift.initState (Mat.const 1 1 1) dummyPsf none
                  c4WitFrameI c4WitFrameT 0 none)))))))

/-- C4 witness: the amended header contract at the concrete witness run. -/
theorem c4_writeto_header_witness :
    ((ArtificialRedshift.writeto_header c4WitConfig c4WitState).keys.lookup
        ArtificialRedshift.HKey.REBIN = some c4WitState.scale_factor) ∧
    (c4WitState.scale_factor
        = (dummyOracles.DL c4WitFrameI.redshift * (1 + c4WitFrameT.redshift) ^ 2
              * c4WitFrameI.pixelscale)
          / (dummyOracles.DL c4WitFrameT.redshift * (1 + c4WitFrameI.redshift) ^ 2
              * c4WitFrameT.pixelscale)) ∧
    ((ArtificialRedshift.writeto_header c4WitConfig c4WitState).keys.lookup
        ArtificialRedshift.HKey.DIM_FACT = some c4WitState.dimming_factor) ∧
    (c4WitState.dimming_factor
        = (dummyOracles.DL c4WitFrameI.redshift
            / dummyOracles.DL c4WitFrameT.redshift) ^ 2) ∧
    ((ArtificialRedshift.writeto_header c4WitConfig c4WitState).keys.lookup
        ArtificialRedshift.HKey.EVO_FACT = some c4WitState.evo_factor) ∧
    (c4WitState.evo_factor
        = dummyOracles.powq 10 (-(2/5) * c4WitState.mag_correction)) ∧
    (c4WitState.mag_correction
        = 0 - 0 * dummyOracles.powq (1 + c4WitFrameT.redshift)
            c4WitConfig.evo_alpha) ∧
    ((ArtificialRedshift.writeto_header c4WitConfig c4WitState).keys.lookup
        ArtificialRedshift.HKey.EV_ALPHA = some c4WitConfig.evo_alpha) ∧
    (∀ (cfg2 : Config) (st2 : ArtificialRedshift.PState),
        (((ArtificialRedshift.writeto_header cfg2 st2).keys.lookup
            ArtificialRedshift.HKey.REBIN).isSome = cfg2.rebinning) ∧
        (((ArtificialRedshift.writeto_header cfg2 st2).keys.lookup
            ArtificialRedshift.HKey.DIM_FACT).isSome = cfg2.dimming) ∧
        (((ArtificialRedshift.writeto_header cfg2 st2).keys.lookup
            ArtificialRedshift.HKey.EVO_FACT).isSome = cfg2.evo) ∧
        (((ArtificialRedshift.writeto_header cfg2 st2).keys.lookup
            ArtificialRedshift.HKey.EV_ALPHA).isSome = cfg2.evo)) :=
  c4_writeto_header_amended dummyOracles c4WitConfig (Mat.const 1 1 1) dummyPsf
    none c4WitFrameI c4WitFrameT 0 none c4WitState rfl rfl rfl rfl

/-- Configuration of the C4 counterexample: as the witness but with the
size correction enabled (its default). -/
def c4CexConfig : Config :=
  { add_background := false, convolve_with_psf := false, make_cutout := false,
    shot_noise := false }

/-- Oracles whose float-power operation returns 1/2 at the size-correction
exponent -0.97 and 1 elsewhere (the real `(1+z)**(-0.97)` is strictly less
than 1 for every positive target redshift, so a value distinct from 1 is
the generic situation). -/
def c4CexOracles : Oracles :=
  { dummyOracles with powq := fun _ e => if e = -(97/100) then 1/2 else 1 }

/-- Frame at z = 1 used on both sides of the counterexample run (the
distances cancel, so the geometric scale factor is exactly 1). -/
def c4CexFrame : ObservationFrame := ⟨1, 1, 1⟩

/-- The state produced by the C4 counterexample run. -/
def c4CexState : ArtificialRedshift.PState :=
  ArtificialRedshift.crop_for_network 101
    (ArtificialRedshift.apply_shot_noise c4CexOracles c4CexConfig
      (ArtificialRedshift.convolve_psf c4CexOracles c4CexConfig
        (ArtificialRedshift.evolution_correction c4CexOracles c4CexConfig
          (ArtificialRedshift.apply_dimming c4CexOracles c4CexConfig
            (ArtificialRedshift.geometric_rebinning c4CexOracles c4CexConfig
              (ArtificialRedshift.cutout_source c4CexOracles c4CexConfig
                (ArtificialRedshift.initState (Mat.const 1 1 3) dummyPsf none
                  c4CexFrame c4CexFrame 0 none)))))))

/-- C4 counterexample: in a run with rebinning, dimming and evolution all
enabled and the size-correction factor equal to 1/2, the header's `REBIN`
holds the geometric scale factor 1 and not the combined factor 1/2 — the
code writes `self.scale_factor`, never multiplying in the
size-correction factor. -/
theorem c4_writeto_header_counterexample :
    (ArtificialRedshift.runPipeline c4CexOracles c4CexConfig (Mat.const 1 1 3)
        dummyPsf none c4CexFrame c4CexFrame 0 none = Except.ok c4CexState) ∧
    ((ArtificialRedshift.writeto_header c4CexConfig c4CexState).keys.lookup
        ArtificialRedshift.HKey.REBIN = some 1) ∧
    (c4CexState.scale_factor * c4CexState.size_correction_factor = 1/2) ∧
    ((1 : ℚ) ≠ 1/2) := by
  refine ⟨rfl, by decide, by decide, by decide⟩

end ConcreteEvaluation
